import Mathlib

/-!
Shallow embedding of the openclaw session reply scheduler's
session-aware outbound delivery (`send-to-session.ts`) and of the
usage-footer utilities (`agent-runner-utils.ts`, `thinking.ts`).

External collaborators that live outside the embedded files
(config loading, session-store loading, channel delivery, the
deliverable-channel predicate, token/cost formatting) are passed in as
explicit function-valued parameters, mirroring the module imports of the
source; fallible collaborators return `Except String`, mirroring
`try`/`catch` on thrown errors.
-/

namespace OpenClaw

/-- `ResponseUsageFlags` from `thinking.ts`: three optional booleans. -/
structure ResponseUsageFlags where
  tokens : Option Bool := none
  cost : Option Bool := none
  context : Option Bool := none
  deriving DecidableEq, Repr

/-- `cfg.session` sub-object: only the `store` path field is read. -/
structure SessionConfig where
  store : Option String := none
  deriving DecidableEq, Repr

/-- `OpenClawConfig`: only the `session` field is read by `sendToSession`. -/
structure OpenClawConfig where
  session : Option SessionConfig := none
  deriving DecidableEq, Repr

/-- `SessionEntry` from `config/sessions/types.ts`, with the fields the
embedded code reads. -/
structure SessionEntry where
  sessionId : String
  updatedAt : Int
  lastChannel : Option String := none
  lastTo : Option String := none
  lastAccountId : Option String := none
  lastThreadId : Option String := none
  responseUsageFlags : Option ResponseUsageFlags := none
  deriving DecidableEq, Repr

/-- `ReplyPayload` from `auto-reply/types.ts`: optional text and media URL. -/
structure ReplyPayload where
  text : Option String := none
  mediaUrl : Option String := none
  deriving DecidableEq, Repr

/-- `SendToSessionParams` from `send-to-session.ts`. -/
structure SendToSessionParams where
  sessionKey : String
  text : String
  agentId : Option String := none
  cfg : Option OpenClawConfig := none
  mediaUrls : Option (List String) := none
  bestEffort : Option Bool := none

/-- `OutboundDeliveryResult` from `deliver.ts` (external): the fields the
tests observe. -/
structure OutboundDeliveryResult where
  channel : String
  messageId : Option String := none
  chatId : Option String := none
  deriving DecidableEq, Repr

/-- The argument object of one `deliverOutboundPayloads` invocation. -/
structure DeliveryCall where
  cfg : OpenClawConfig
  channel : String
  «to» : String
  accountId : Option String
  payloads : List ReplyPayload
  threadId : Option String
  bestEffort : Option Bool
  deriving DecidableEq, Repr

/-- `SendToSessionResult`: the tagged union
`\x7b ok: true; results \x7d | \x7b ok: false; error \x7d`. -/
inductive SendToSessionResult where
  | ok (results : List OutboundDeliveryResult)
  | error (error : String)
  deriving DecidableEq, Repr

/-- The external collaborators `send-to-session.ts` imports.  Fallible ones
(`loadConfig`, `loadSessionStore`, `deliverOutboundPayloads`) are modelled
as `Except String` results, standing for normal return vs. thrown error. -/
structure SendEnv where
  loadConfig : Except String OpenClawConfig
  resolveStorePath : Option String → Option String → String
  loadSessionStore : String → Except String (List (String × SessionEntry))
  isDeliverableMessageChannel : String → Bool
  deliverOutboundPayloads : DeliveryCall → Except String (List OutboundDeliveryResult)

/-- JS truthiness of an optional string: `undefined` and `""` are falsy. -/
def optStrTruthy : Option String → Bool
  | none => false
  | some s => s ≠ ""

/-- Record lookup `store[sessionKey]` over an association-list store. -/
def storeLookup (k : String) : List (String × SessionEntry) → Option SessionEntry
  | [] => none
  | (k', e) :: rest => if k' = k then some e else storeLookup k rest

/-- `resolveOutboundChannel` from `send-to-session.ts`: `undefined` when the
channel is absent or not deliverable, the channel itself otherwise. -/
def resolveOutboundChannel (isDeliverable : String → Bool) :
    Option String → Option String
  | none => none
  | some c => if isDeliverable c then some c else none

/-- The payload-building block of `sendToSession`: one payload per media URL
(text only on the first), or a single text payload when there are no
media URLs (`mediaUrls?.length` is falsy for `undefined` and `[]`). -/
def buildOutboundPayloads (text : String) : Option (List String) → List ReplyPayload
  | some (u :: us) =>
      ⟨some text, some u⟩ :: us.map (fun url => ⟨some "", some url⟩)
  | some [] => [⟨some text, none⟩]
  | none => [⟨some text, none⟩]

/-- The config-resolution step of `sendToSession`: use `params.cfg` when
provided, otherwise `loadConfig()` with its failure caught and converted. -/
def resolveCfg (env : SendEnv) (params : SendToSessionParams) :
    Except String OpenClawConfig :=
  match params.cfg with
  | some c => .ok c
  | none =>
    match env.loadConfig with
    | .ok c => .ok c
    | .error e => .error ("Failed to load config: " ++ e)

/-- `sendToSession` from `send-to-session.ts`.  The second component of the
result is the instrumentation of the embedding: the list of
`deliverOutboundPayloads` invocations made (the source makes at most one). -/
def sendToSession (env : SendEnv) (params : SendToSessionParams) :
    SendToSessionResult × List DeliveryCall :=
  match resolveCfg env params with
  | .error e => (.error e, [])
  | .ok cfg =>
    let storePath := env.resolveStorePath (cfg.session.bind SessionConfig.store) params.agentId
    match env.loadSessionStore storePath with
    | .error e => (.error ("Failed to load session store: " ++ e), [])
    | .ok store =>
      match storeLookup params.sessionKey store with
      | none => (.error ("Session not found: " ++ params.sessionKey), [])
      | some entry =>
        let channel := resolveOutboundChannel env.isDeliverableMessageChannel entry.lastChannel
        match channel with
        | none => (.error ("No channel found for session: " ++ params.sessionKey), [])
        | some ch =>
          match entry.lastTo with
          | none => (.error ("No destination found for session: " ++ params.sessionKey), [])
          | some «to» =>
            if «to» = "" then
              (.error ("No destination found for session: " ++ params.sessionKey), [])
            else
              let payloads := buildOutboundPayloads params.text params.mediaUrls
              let call : DeliveryCall :=
                { cfg := cfg, channel := ch, «to» := «to», accountId := entry.lastAccountId
                  payloads := payloads, threadId := entry.lastThreadId
                  bestEffort := params.bestEffort }
              match env.deliverOutboundPayloads call with
              | .ok results => (.ok results, [call])
              | .error e => (.error ("Delivery failed: " ++ e), [call])

/-- Modelled from the spec: `isDeliverableMessageChannel` from
`utils/message-channel.ts` is not among the provided sources.  The spec
names telegram, whatsapp, slack and imessage as message channels and calls
`webchat` "a non-deliverable channel"; the theorems below quantify over the
predicate, and this concrete model is used only to instantiate witnesses. -/
def isDeliverableMessageChannelModel (c : String) : Bool :=
  c = "telegram" ∨ c = "whatsapp" ∨ c = "slack" ∨ c = "imessage"

/-- `NormalizedUsage` from `agents/usage.ts`: optional numeric token
counts, modelled as rationals (TS `number`). -/
structure NormalizedUsage where
  input : Option ℚ := none
  output : Option ℚ := none
  cacheRead : Option ℚ := none
  cacheWrite : Option ℚ := none
  deriving DecidableEq, Repr

/-- The per-model cost table argument of `formatResponseUsageLine`. -/
structure CostConfig where
  input : ℚ
  output : ℚ
  cacheRead : ℚ
  cacheWrite : ℚ
  deriving DecidableEq, Repr

/-- The external usage-formatting collaborators `agent-runner-utils.ts`
imports from `utils/usage-format.ts`: `formatTokenCount`,
`estimateUsageCost` and `formatUsd` (the last may return a falsy value,
modelled as `Option String`). -/
structure UsageFmtEnv where
  formatTokenCount : ℚ → String
  estimateUsageCost : NormalizedUsage → Option CostConfig → ℚ
  formatUsd : ℚ → Option String

/-- `formatContextPercent` from `agent-runner-utils.ts`: `null` unless both
numbers are present, the max is positive and the used count nonnegative;
otherwise the uppercased token label with the rounded percentage. -/
def formatContextPercent (env : UsageFmtEnv)
    (usedTokens maxContext : Option ℚ) : Option String :=
  match usedTokens, maxContext with
  | some u, some m =>
    if m ≤ 0 ∨ u < 0 then none
    else
      let percent : ℤ := round (u / m * 100)
      let tokensLabel := (env.formatTokenCount u).toUpper
      some (tokensLabel ++ " (" ++ toString percent ++ "%)")
  | _, _ => none

/-- The parameter object of `formatResponseUsageLine`. -/
structure FormatResponseUsageLineParams where
  usage : Option NormalizedUsage := none
  showCost : Bool
  costConfig : Option CostConfig := none
  flags : Option ResponseUsageFlags := none
  contextUsedTokens : Option ℚ := none
  contextMaxTokens : Option ℚ := none

/-- The tokens block of `formatResponseUsageLine`:
`if (showTokens) parts.push(...)`. -/
def tokensPartsStep (env : UsageFmtEnv) (input output : Option ℚ)
    (showTokens : Bool) (parts : List String) : List String :=
  if showTokens then
    let inputLabel := match input with
      | some n => env.formatTokenCount n
      | none => "?"
    let outputLabel := match output with
      | some n => env.formatTokenCount n
      | none => "?"
    parts ++ ["Usage: " ++ inputLabel ++ " in / " ++ outputLabel ++ " out"]
  else parts

/-- The cost block of `formatResponseUsageLine`:
`if (showCost && typeof input === "number" && typeof output === "number")`
push the estimated cost label when `formatUsd` produced a truthy one. -/
def costPartsStep (env : UsageFmtEnv) (usage : NormalizedUsage)
    (costConfig : Option CostConfig) (showCost : Bool)
    (parts : List String) : List String :=
  if showCost then
    match usage.input, usage.output with
    | some i, some o =>
      let cost := env.estimateUsageCost
        ⟨some i, some o, usage.cacheRead, usage.cacheWrite⟩ costConfig
      match env.formatUsd cost with
      | some s =>
        if s ≠ "" then
          parts ++ [if parts ≠ [] then "est " ++ s else "Cost: est " ++ s]
        else parts
      | none => parts
    | _, _ => parts
  else parts

/-- The context block of `formatResponseUsageLine`: push the context label
when `formatContextPercent` produced a truthy one. -/
def contextPartsStep (env : UsageFmtEnv)
    (contextUsedTokens contextMaxTokens : Option ℚ) (showContext : Bool)
    (parts : List String) : List String :=
  if showContext then
    match formatContextPercent env contextUsedTokens contextMaxTokens with
    | some s =>
      if s ≠ "" then
        parts ++ [if parts ≠ [] then s else "Context: " ++ s]
      else parts
    | none => parts
  else parts

/-- The final join of `formatResponseUsageLine`: `null` for no parts, the
single part alone, otherwise the head followed by the middle-dot-separated
rest. -/
def joinUsageParts : List String → Option String
  | [] => none
  | [single] => some single
  | first :: rest => some (first ++ " · " ++ String.intercalate " · " rest)

/-- `formatResponseUsageLine` from `agent-runner-utils.ts`: build the parts
list (tokens, then cost, then context percentage) according to the flags
(or the legacy `showCost` mode when no flags object is given) and join it
with the middle-dot separator. -/
def formatResponseUsageLine (env : UsageFmtEnv)
    (p : FormatResponseUsageLineParams) : Option String :=
  match p.usage with
  | none => none
  | some usage =>
    if usage.input.isNone && usage.output.isNone then none
    else
      let showTokens := match p.flags with
        | some f => f.tokens.getD false
        | none => true
      let showCost := match p.flags with
        | some f => f.cost.getD false
        | none => p.showCost
      let showContext := match p.flags with
        | some f => f.context.getD false
        | none => false
      if !showTokens && !showCost && !showContext then none
      else
        joinUsageParts
          (contextPartsStep env p.contextUsedTokens p.contextMaxTokens showContext
            (costPartsStep env usage p.costConfig showCost
              (tokensPartsStep env usage.input usage.output showTokens [])))

/-- JS truthiness of an optional payload text (nonempty string). -/
def payloadHasText (p : ReplyPayload) : Bool := optStrTruthy p.text

/-- `String.prototype.trimEnd`: drop trailing whitespace. -/
def trimEndStr (s : String) : String :=
  ⟨(s.data.reverse.dropWhile Char.isWhitespace).reverse⟩

/-- `String.prototype.trim`: drop leading and trailing whitespace. -/
def trimStr (s : String) : String :=
  ⟨((s.data.dropWhile Char.isWhitespace).reverse.dropWhile Char.isWhitespace).reverse⟩

/-- The index found by `appendUsageLine`'s backwards scan: the last index
whose payload has truthy text, if any. -/
def lastTextIndex : List ReplyPayload → Option Nat
  | [] => none
  | p :: rest =>
    match lastTextIndex rest with
    | some i => some (i + 1)
    | none => if payloadHasText p then some 0 else none

/-- `appendUsageLine` from `agent-runner-utils.ts`: append the line (after
the `--` footer separator) to the last payload with truthy text, copying
the list; when no payload has text, append a new text-only payload. -/
def appendUsageLine (payloads : List ReplyPayload) (line : String) : List ReplyPayload :=
  match lastTextIndex payloads with
  | none => payloads ++ [{ text := some line }]
  | some index =>
    let existing := payloads.getD index {}
    let existingText := existing.text.getD ""
    let trimmed := trimEndStr existingText
    let next : ReplyPayload := { existing with text := some (trimmed ++ "\n\n--\n" ++ line) }
    payloads.set index next

/-- Boolean prefix test on character lists. -/
def listIsPrefixOf : List Char → List Char → Bool
  | [], _ => true
  | _ :: _, [] => false
  | a :: as, b :: bs => a = b && listIsPrefixOf as bs

/-- Boolean substring test on character lists (needle first). -/
def listContainsSub (needle : List Char) : List Char → Bool
  | [] => listIsPrefixOf needle []
  | c :: rest => listIsPrefixOf needle (c :: rest) || listContainsSub needle rest

/-- The literal text of `BUN_FETCH_SOCKET_ERROR_RE`. -/
def bunFetchSocketErrorPhrase : String := "socket connection was closed unexpectedly"

/-- `BUN_FETCH_SOCKET_ERROR_RE.test`: the regex is a plain literal with the
`i` flag, i.e. case-insensitive substring containment of its text. -/
def testBunFetchSocketErrorRe (s : String) : Bool :=
  listContainsSub bunFetchSocketErrorPhrase.toLower.data s.toLower.data

/-- `isBunFetchSocketError` from `agent-runner-utils.ts`:
`Boolean(message && RE.test(message))`. -/
def isBunFetchSocketError : Option String → Bool
  | none => false
  | some message => message ≠ "" && testBunFetchSocketErrorRe message

/-- `Array.prototype.join("\n")` on a list of lines. -/
def joinWithNewlines : List String → String
  | [] => ""
  | [s] => s
  | s :: rest => s ++ "\n" ++ joinWithNewlines rest

/-- The first line of the `formatBunFetchSocketError` output. -/
def bunFetchSocketErrorHeader : String :=
  "⚠️ LLM connection failed. This could be due to server issues, network problems, or context length exceeded (e.g., with local LLMs like LM Studio). Original error:"

/-- `formatBunFetchSocketError` from `agent-runner-utils.ts`. -/
def formatBunFetchSocketError (message : String) : String :=
  let trimmed := trimStr message
  joinWithNewlines
    [bunFetchSocketErrorHeader,
     "```",
     if trimmed = "" then "Unknown error" else trimmed,
     "```"]

/-- Modelled from the spec: the scheduler (`agent-runner.ts`, not among the
provided sources) resolves `ResponseUsageFlags` by priority — session-level
flags override the channel-level config default, which overrides the global
config default ("explicit ordered lookup function over three optional
sources"). -/
def resolveResponseUsageFlags
    (sessionFlags channelDefault globalDefault : Option ResponseUsageFlags) :
    Option ResponseUsageFlags :=
  sessionFlags.orElse fun _ => channelDefault.orElse fun _ => globalDefault

/-- Modelled from the spec: step 4 of the runner algorithm (§4.5) — when a
usage line was produced it is appended to the payload list, otherwise the
payloads pass through unchanged. -/
def applyUsageLine (payloads : List ReplyPayload) : Option String → List ReplyPayload
  | some line => appendUsageLine payloads line
  | none => payloads

/-! ### Concrete instances used by the witnesses -/

/-- A concrete environment whose store is empty. -/
def envEmptyStore : SendEnv where
  loadConfig := .ok {}
  resolveStorePath := fun _ _ => "sessions.json"
  loadSessionStore := fun _ => .ok []
  isDeliverableMessageChannel := isDeliverableMessageChannelModel
  deliverOutboundPayloads := fun _ => .error "unused"

/-- The webchat entry of the `skips webchat channel` test. -/
def webchatEntry : SessionEntry :=
  { sessionId := "abc", updatedAt := 0, lastChannel := some "webchat", lastTo := some "456" }

/-- A concrete environment holding the webchat entry. -/
def envWebchat : SendEnv :=
  { envEmptyStore with loadSessionStore := fun _ => .ok [("webchat:123", webchatEntry)] }

/-- The entry of the `returns error when session has no destination` test. -/
def noDestEntry : SessionEntry :=
  { sessionId := "abc", updatedAt := 0, lastChannel := some "telegram" }

/-- A concrete environment holding the destination-less entry. -/
def envNoDest : SendEnv :=
  { envEmptyStore with loadSessionStore := fun _ => .ok [("telegram:123", noDestEntry)] }

/-- The entry of the `delivers message when session has valid routing` test. -/
def routedEntry : SessionEntry :=
  { sessionId := "abc", updatedAt := 0, lastChannel := some "telegram",
    lastTo := some "456", lastAccountId := some "bot1", lastThreadId := some "789" }

/-- The delivery-result record of the mocked delivery. -/
def mockDeliveryResult : OutboundDeliveryResult :=
  { channel := "telegram", messageId := some "123", chatId := some "456" }

/-- A concrete environment holding the routed entry and a delivery stub
that succeeds with `mockDeliveryResult`. -/
def envRouted : SendEnv :=
  { envEmptyStore with
    loadSessionStore := fun _ => .ok [("telegram:123", routedEntry)]
    deliverOutboundPayloads := fun _ => .ok [mockDeliveryResult] }

/-- A concrete environment whose config load fails. -/
def envCfgFail : SendEnv := { envEmptyStore with loadConfig := .error "boom" }

/-- A concrete environment whose session-store load fails. -/
def envStoreFail : SendEnv := { envEmptyStore with loadSessionStore := fun _ => .error "boom" }

/-- A concrete environment whose delivery fails. -/
def envDeliverFail : SendEnv :=
  { envEmptyStore with
    loadSessionStore := fun _ => .ok [("telegram:123", routedEntry)]
    deliverOutboundPayloads := fun _ => .error "boom" }

/-- The delivery call `envDeliverFail` receives. -/
def deliverFailCall : DeliveryCall :=
  { cfg := {}, channel := "telegram", «to» := "456", accountId := some "bot1",
    payloads := [{ text := some "hi" }], threadId := some "789", bestEffort := none }

/-- A concrete usage-formatting environment used by witnesses. -/
def usageEnvW : UsageFmtEnv where
  formatTokenCount := fun q => toString q.num
  estimateUsageCost := fun _ _ => 0
  formatUsd := fun _ => none

/-! ### Theorems about `sendToSession` -/

/-- C2: a session key with no entry in the loaded store yields the
structured `Session not found` error and no delivery invocation. -/
theorem sendToSession_session_not_found
    (env : SendEnv) (params : SendToSessionParams)
    (cfg : OpenClawConfig) (store : List (String × SessionEntry))
    (hcfg : resolveCfg env params = .ok cfg)
    (hstore : env.loadSessionStore
        (env.resolveStorePath (cfg.session.bind SessionConfig.store) params.agentId)
      = .ok store)
    (hmiss : storeLookup params.sessionKey store = none) :
    sendToSession env params =
      (.error ("Session not found: " ++ params.sessionKey), []) := by
  simp [sendToSession, hcfg, hstore, hmiss]

/-- Witness for C2: the scenario of the spec — key `telegram:123`, empty
store — produces exactly `Session not found: telegram:123`. -/
theorem sendToSession_session_not_found_witness :
    sendToSession envEmptyStore { sessionKey := "telegram:123", text := "Hello" } =
      (.error "Session not found: telegram:123", []) :=
  sendToSession_session_not_found envEmptyStore
    { sessionKey := "telegram:123", text := "Hello" } {} [] rfl rfl rfl

/-- C3: an entry whose `lastChannel` is absent or not a deliverable message
channel yields the structured `No channel found` error and no delivery. -/
theorem sendToSession_no_channel
    (env : SendEnv) (params : SendToSessionParams)
    (cfg : OpenClawConfig) (store : List (String × SessionEntry))
    (entry : SessionEntry)
    (hcfg : resolveCfg env params = .ok cfg)
    (hstore : env.loadSessionStore
        (env.resolveStorePath (cfg.session.bind SessionConfig.store) params.agentId)
      = .ok store)
    (hentry : storeLookup params.sessionKey store = some entry)
    (hch : entry.lastChannel = none ∨
      ∃ c, entry.lastChannel = some c ∧ env.isDeliverableMessageChannel c = false) :
    sendToSession env params =
      (.error ("No channel found for session: " ++ params.sessionKey), []) := by
  have hres : resolveOutboundChannel env.isDeliverableMessageChannel entry.lastChannel = none := by
    rcases hch with h | ⟨c, hc, hd⟩
    · simp [resolveOutboundChannel, h]
    · simp [resolveOutboundChannel, hc, hd]
  simp [sendToSession, hcfg, hstore, hentry, hres]

/-- Witness for C3: the `skips webchat channel` scenario — an entry with
`lastChannel = webchat` — produces the `No channel found` error. -/
theorem sendToSession_no_channel_witness :
    sendToSession envWebchat { sessionKey := "webchat:123", text := "Hello" } =
      (.error "No channel found for session: webchat:123", []) :=
  sendToSession_no_channel envWebchat
    { sessionKey := "webchat:123", text := "Hello" } {} [("webchat:123", webchatEntry)]
    webchatEntry rfl rfl (by decide)
    (.inr ⟨"webchat", rfl, by decide⟩)

/-- C10: an entry whose channel resolves but whose `lastTo` is missing or
empty yields the structured `No destination found` error and no delivery. -/
theorem sendToSession_no_destination
    (env : SendEnv) (params : SendToSessionParams)
    (cfg : OpenClawConfig) (store : List (String × SessionEntry))
    (entry : SessionEntry) (c : String)
    (hcfg : resolveCfg env params = .ok cfg)
    (hstore : env.loadSessionStore
        (env.resolveStorePath (cfg.session.bind SessionConfig.store) params.agentId)
      = .ok store)
    (hentry : storeLookup params.sessionKey store = some entry)
    (hch : entry.lastChannel = some c)
    (hdeliv : env.isDeliverableMessageChannel c = true)
    (hto : entry.lastTo = none ∨ entry.lastTo = some "") :
    sendToSession env params =
      (.error ("No destination found for session: " ++ params.sessionKey), []) := by
  have hres : resolveOutboundChannel env.isDeliverableMessageChannel entry.lastChannel = some c := by
    simp [resolveOutboundChannel, hch, hdeliv]
  rcases hto with h | h
  · simp [sendToSession, hcfg, hstore, hentry, hres, h]
  · simp [sendToSession, hcfg, hstore, hentry, hres, h]

/-- Witness for C10: an entry with `lastChannel = telegram` and no `lastTo`
produces the `No destination found` error. -/
theorem sendToSession_no_destination_witness :
    sendToSession envNoDest { sessionKey := "telegram:123", text := "Hello" } =
      (.error "No destination found for session: telegram:123", []) :=
  sendToSession_no_destination envNoDest
    { sessionKey := "telegram:123", text := "Hello" } {} [("telegram:123", noDestEntry)]
    noDestEntry "telegram" rfl rfl (by decide) rfl (by decide) (.inl rfl)

/-- C4: an entry with full routing and a text-only send produces exactly
one delivery invocation, carrying the entry's channel, destination, account
and thread and the single text payload, and on delivery success the call
returns `ok` with the delivery results. -/
theorem sendToSession_delivers
    (env : SendEnv) (params : SendToSessionParams)
    (cfg : OpenClawConfig) (store : List (String × SessionEntry))
    (entry : SessionEntry) (c t accountId threadId : String)
    (results : List OutboundDeliveryResult)
    (hcfg : resolveCfg env params = .ok cfg)
    (hstore : env.loadSessionStore
        (env.resolveStorePath (cfg.session.bind SessionConfig.store) params.agentId)
      = .ok store)
    (hentry : storeLookup params.sessionKey store = some entry)
    (hch : entry.lastChannel = some c)
    (hdeliv : env.isDeliverableMessageChannel c = true)
    (hto : entry.lastTo = some t) (ht : t ≠ "")
    (haid : entry.lastAccountId = some accountId)
    (htid : entry.lastThreadId = some threadId)
    (hmedia : params.mediaUrls = none ∨ params.mediaUrls = some [])
    (hdel : env.deliverOutboundPayloads
        { cfg := cfg, channel := c, «to» := t, accountId := some accountId,
          payloads := [{ text := some params.text }], threadId := some threadId,
          bestEffort := params.bestEffort } = .ok results) :
    sendToSession env params =
      (.ok results,
       [{ cfg := cfg, channel := c, «to» := t, accountId := some accountId,
          payloads := [{ text := some params.text }], threadId := some threadId,
          bestEffort := params.bestEffort }]) := by
  have hres : resolveOutboundChannel env.isDeliverableMessageChannel entry.lastChannel = some c := by
    simp [resolveOutboundChannel, hch, hdeliv]
  have hpay : buildOutboundPayloads params.text params.mediaUrls =
      [{ text := some params.text }] := by
    rcases hmedia with h | h
    · simp [buildOutboundPayloads, h]
    · simp [buildOutboundPayloads, h]
  simp [sendToSession, hcfg, hstore, hentry, hres, hto, ht, haid, htid, hpay, hdel]

/-- Helper: whenever the delivery log holds exactly one call, the delivery
oracle was consulted on that call, and the result follows its outcome. -/
theorem sendToSession_delivery_log (env : SendEnv) (params : SendToSessionParams)
    (call : DeliveryCall) (hlog : (sendToSession env params).2 = [call]) :
    (∃ rs, env.deliverOutboundPayloads call = .ok rs ∧
       (sendToSession env params).1 = .ok rs) ∨
    (∃ e, env.deliverOutboundPayloads call = .error e ∧
       (sendToSession env params).1 = .error ("Delivery failed: " ++ e)) := by
  simp only [sendToSession] at hlog ⊢
  rcases hc : resolveCfg env params with e | cfg
  · simp [hc] at hlog
  · simp only [hc] at hlog ⊢
    rcases hs : env.loadSessionStore
        (env.resolveStorePath (cfg.session.bind SessionConfig.store) params.agentId)
      with e | store
    · simp [hs] at hlog
    · simp only [hs] at hlog ⊢
      rcases he : storeLookup params.sessionKey store with _ | entry
      · simp [he] at hlog
      · simp only [he] at hlog ⊢
        rcases hch : resolveOutboundChannel env.isDeliverableMessageChannel entry.lastChannel
          with _ | ch
        · simp [hch] at hlog
        · simp only [hch] at hlog ⊢
          rcases hto : entry.lastTo with _ | t
          · simp [hto] at hlog
          · simp only [hto] at hlog ⊢
            by_cases hte : t = ""
            · simp [hte] at hlog
            · simp only [if_neg hte] at hlog ⊢
              rcases hd : env.deliverOutboundPayloads
                  { cfg := cfg, channel := ch, «to» := t, accountId := entry.lastAccountId,
                    payloads := buildOutboundPayloads params.text params.mediaUrls,
                    threadId := entry.lastThreadId, bestEffort := params.bestEffort }
                with e | rs
              · simp only [hd] at hlog ⊢
                simp only [List.cons.injEq, and_true] at hlog
                subst hlog
                exact .inr ⟨e, hd, rfl⟩
              · simp only [hd] at hlog ⊢
                simp only [List.cons.injEq, and_true] at hlog
                subst hlog
                exact .inl ⟨rs, hd, rfl⟩

/-- C1: `sendToSession` is total into the structured result type, and each
of the three fallible steps (config load, session-store load, delivery) is
caught and converted into a structured error value. -/
theorem sendToSession_structured_errors (env : SendEnv) (params : SendToSessionParams) :
    ((∃ rs, (sendToSession env params).1 = .ok rs) ∨
     (∃ e, (sendToSession env params).1 = .error e))
    ∧ (∀ e, params.cfg = none → env.loadConfig = .error e →
        (sendToSession env params).1 = .error ("Failed to load config: " ++ e))
    ∧ (∀ cfg e, resolveCfg env params = .ok cfg →
        env.loadSessionStore
            (env.resolveStorePath (cfg.session.bind SessionConfig.store) params.agentId)
          = .error e →
        (sendToSession env params).1 = .error ("Failed to load session store: " ++ e))
    ∧ (∀ call e, (sendToSession env params).2 = [call] →
        env.deliverOutboundPayloads call = .error e →
        (sendToSession env params).1 = .error ("Delivery failed: " ++ e)) := by
  refine ⟨?_, ?_, ?_, ?_⟩
  · cases h : (sendToSession env params).1 with
    | ok rs => exact .inl ⟨rs, rfl⟩
    | error e => exact .inr ⟨e, rfl⟩
  · intro e h1 h2
    simp [sendToSession, resolveCfg, h1, h2]
  · intro cfg e h1 h2
    simp [sendToSession, h1, h2]
  · intro call e hlog hdel
    rcases sendToSession_delivery_log env params call hlog with ⟨rs, hok, _⟩ | ⟨e', herr, hres⟩
    · rw [hdel] at hok
      exact absurd hok (by simp)
    · rw [hdel] at herr
      obtain rfl : e = e' := by injection herr
      exact hres

/-- Witness for C1: each fallible step, made to fail concretely, is
converted to its structured error value. -/
theorem sendToSession_structured_errors_witness :
    (sendToSession envCfgFail { sessionKey := "k", text := "hi" }).1 =
      .error ("Failed to load config: " ++ "boom")
    ∧ (sendToSession envStoreFail { sessionKey := "k", text := "hi" }).1 =
      .error ("Failed to load session store: " ++ "boom")
    ∧ (sendToSession envDeliverFail { sessionKey := "telegram:123", text := "hi" }).1 =
      .error ("Delivery failed: " ++ "boom") :=
  ⟨(sendToSession_structured_errors envCfgFail
      { sessionKey := "k", text := "hi" }).2.1 "boom" rfl rfl,
   (sendToSession_structured_errors envStoreFail
      { sessionKey := "k", text := "hi" }).2.2.1 {} "boom" rfl rfl,
   (sendToSession_structured_errors envDeliverFail
      { sessionKey := "telegram:123", text := "hi" }).2.2.2 deliverFailCall "boom"
      (by decide) rfl⟩

/-- Witness for C4: the `delivers message when session has valid routing`
scenario — channel telegram, to 456, account bot1, thread 789, text
`Hello world` — invokes delivery once with those fields and succeeds. -/
theorem sendToSession_delivers_witness :
    sendToSession envRouted { sessionKey := "telegram:123", text := "Hello world" } =
      (.ok [mockDeliveryResult],
       [{ cfg := {}, channel := "telegram", «to» := "456", accountId := some "bot1",
          payloads := [{ text := some "Hello world" }], threadId := some "789",
          bestEffort := none }]) :=
  sendToSession_delivers envRouted
    { sessionKey := "telegram:123", text := "Hello world" } {}
    [("telegram:123", routedEntry)] routedEntry
    "telegram" "456" "bot1" "789" [mockDeliveryResult]
    rfl rfl (by decide) rfl (by decide) rfl (by decide) rfl rfl (.inl rfl) rfl

/-! ### Theorems about the usage-footer utilities -/

/-- Helper: the cost block never changes the head of a nonempty parts
list — it returns the list unchanged or with one element appended. -/
theorem costPartsStep_cons (env : UsageFmtEnv) (usage : NormalizedUsage)
    (costConfig : Option CostConfig) (showCost : Bool) (s : String) (t : List String) :
    ∃ t', costPartsStep env usage costConfig showCost (s :: t) = s :: t' := by
  unfold costPartsStep
  by_cases hsc : showCost = true
  case neg => exact ⟨t, by simp [hsc]⟩
  case pos =>
    rcases hi : usage.input with _ | i
    · exact ⟨t, by simp [hsc, hi]⟩
    · rcases ho : usage.output with _ | o
      · exact ⟨t, by simp [hsc, hi, ho]⟩
      · rcases hl : env.formatUsd (env.estimateUsageCost
            { input := some i, output := some o, cacheRead := usage.cacheRead,
              cacheWrite := usage.cacheWrite } costConfig) with _ | lbl
        · exact ⟨t, by simp [hsc, hi, ho, hl]⟩
        · by_cases hlb : lbl = ""
          · exact ⟨t, by simp [hsc, hi, ho, hl, hlb]⟩
          · exact ⟨t ++ ["est " ++ lbl], by simp [hsc, hi, ho, hl, hlb]⟩

/-- Helper: the context block never changes the head of a nonempty parts
list — it returns the list unchanged or with one element appended. -/
theorem contextPartsStep_cons (env : UsageFmtEnv)
    (contextUsedTokens contextMaxTokens : Option ℚ) (showContext : Bool)
    (s : String) (t : List String) :
    ∃ t', contextPartsStep env contextUsedTokens contextMaxTokens showContext (s :: t)
      = s :: t' := by
  unfold contextPartsStep
  by_cases hsc : showContext = true
  case neg => exact ⟨t, by simp [hsc]⟩
  case pos =>
    rcases hl : formatContextPercent env contextUsedTokens contextMaxTokens with _ | lbl
    · exact ⟨t, by simp [hsc, hl]⟩
    · by_cases hlb : lbl = ""
      · exact ⟨t, by simp [hsc, hl, hlb]⟩
      · exact ⟨t ++ [lbl], by simp [hsc, hl, hlb]⟩

/-- Helper: joining a nonempty parts list yields the head followed by some
rest. -/
theorem joinUsageParts_cons (s : String) (t : List String) :
    ∃ rest, joinUsageParts (s :: t) = some (s ++ rest) := by
  cases t with
  | nil => exact ⟨"", by simp [joinUsageParts]⟩
  | cons a as =>
    exact ⟨" · " ++ String.intercalate " · " (a :: as),
      by simp [joinUsageParts, String.append_assoc]⟩

/-- C5: with numeric input and output counts and a flags object enabling
`tokens`, `formatResponseUsageLine` returns a line that begins with
`Usage: <formatted input> in / <formatted output> out`. -/
theorem formatResponseUsageLine_tokens
    (env : UsageFmtEnv) (p : FormatResponseUsageLineParams)
    (u : NormalizedUsage) (f : ResponseUsageFlags) (n m : ℚ)
    (hu : p.usage = some u) (hi : u.input = some n) (ho : u.output = some m)
    (hf : p.flags = some f) (ht : f.tokens = some true) :
    ∃ rest, formatResponseUsageLine env p =
      some ("Usage: " ++ env.formatTokenCount n ++ " in / "
        ++ env.formatTokenCount m ++ " out" ++ rest) := by
  have hstep : tokensPartsStep env (some n) (some m) true [] =
      ["Usage: " ++ env.formatTokenCount n ++ " in / "
        ++ env.formatTokenCount m ++ " out"] := by
    simp [tokensPartsStep]
  obtain ⟨t1, h1⟩ := costPartsStep_cons env u p.costConfig (f.cost.getD false)
    ("Usage: " ++ env.formatTokenCount n ++ " in / " ++ env.formatTokenCount m ++ " out") []
  obtain ⟨t2, h2⟩ := contextPartsStep_cons env p.contextUsedTokens p.contextMaxTokens
    (f.context.getD false)
    ("Usage: " ++ env.formatTokenCount n ++ " in / " ++ env.formatTokenCount m ++ " out") t1
  obtain ⟨rest, h3⟩ := joinUsageParts_cons
    ("Usage: " ++ env.formatTokenCount n ++ " in / " ++ env.formatTokenCount m ++ " out") t2
  refine ⟨rest, ?_⟩
  simp [formatResponseUsageLine, hu, hi, ho, hf, ht, hstep, h1, h2, h3]

/-- Witness for C5: usage 12 in / 3 out with the tokens flag yields a line
beginning with `Usage: 12 in / 3 out`. -/
theorem formatResponseUsageLine_tokens_witness :
    ∃ rest, formatResponseUsageLine usageEnvW
      { usage := some { input := some 12, output := some 3 },
        showCost := false,
        flags := some { tokens := some true } } =
      some ("Usage: " ++ usageEnvW.formatTokenCount 12 ++ " in / "
        ++ usageEnvW.formatTokenCount 3 ++ " out" ++ rest) :=
  formatResponseUsageLine_tokens usageEnvW
    { usage := some { input := some 12, output := some 3 },
      showCost := false, flags := some { tokens := some true } }
    { input := some 12, output := some 3 } { tokens := some true }
    12 3 rfl rfl rfl rfl rfl

/-- C6: a provided flags object whose `tokens`, `cost` and `context` are
all absent or false makes `formatResponseUsageLine` return `null`
regardless of usage, legacy `showCost` mode, cost table or context values;
spec-modelled flag resolution keeps such session-level flags even when
channel or global defaults are set; and a `null` line leaves the payloads
unchanged. -/
theorem formatResponseUsageLine_empty_flags
    (env : UsageFmtEnv) (p : FormatResponseUsageLineParams)
    (f : ResponseUsageFlags)
    (channelDefault globalDefault : Option ResponseUsageFlags)
    (payloads : List ReplyPayload)
    (hf : p.flags = some f)
    (ht : f.tokens.getD false = false)
    (hc : f.cost.getD false = false)
    (hx : f.context.getD false = false) :
    formatResponseUsageLine env p = none
    ∧ resolveResponseUsageFlags (some f) channelDefault globalDefault = some f
    ∧ applyUsageLine payloads (formatResponseUsageLine env p) = payloads := by
  have hnone : formatResponseUsageLine env p = none := by
    cases hu : p.usage with
    | none => simp [formatResponseUsageLine, hu]
    | some u => simp [formatResponseUsageLine, hu, hf, ht, hc, hx]
  refine ⟨hnone, ?_, ?_⟩
  · simp [resolveResponseUsageFlags, Option.orElse]
  · simp [hnone, applyUsageLine]

/-- Helper: when the backwards scan finds an index, that index holds a
payload with truthy text. -/
theorem lastTextIndex_some_get (ps : List ReplyPayload) (i : Nat)
    (h : lastTextIndex ps = some i) :
    ∃ p, ps[i]? = some p ∧ payloadHasText p = true := by
  induction ps generalizing i with
  | nil => simp [lastTextIndex] at h
  | cons p rest ih =>
    simp only [lastTextIndex] at h
    rcases hr : lastTextIndex rest with _ | k
    · simp only [hr] at h
      by_cases hp : payloadHasText p
      · simp only [if_pos hp, Option.some.injEq] at h
        subst h
        exact ⟨p, by simp, hp⟩
      · simp [if_neg hp] at h
    · simp only [hr, Option.some.injEq] at h
      subst h
      obtain ⟨q, hq, hqt⟩ := ih k hr
      exact ⟨q, by simpa using hq, hqt⟩

/-- Helper: the backwards scan returns `none` exactly when no payload has
truthy text. -/
theorem lastTextIndex_none_iff (ps : List ReplyPayload) :
    lastTextIndex ps = none ↔ ∀ (j : Nat) (q : ReplyPayload), ps[j]? = some q → payloadHasText q = false := by
  induction ps with
  | nil => simp [lastTextIndex]
  | cons p rest ih =>
    constructor
    · intro h j q hq
      simp only [lastTextIndex] at h
      rcases hr : lastTextIndex rest with _ | k
      · simp only [hr] at h
        by_cases hp : payloadHasText p
        · simp [if_pos hp] at h
        · match j, hq with
          | 0, hq =>
            obtain rfl : p = q := by simpa using hq
            exact Bool.not_eq_true _ |>.mp hp
          | j' + 1, hq =>
            exact (ih.mp hr) j' q (by simpa using hq)
      · simp [hr] at h
    · intro h
      simp only [lastTextIndex]
      rcases hr : lastTextIndex rest with _ | k
      · have hp : payloadHasText p = false := h 0 p (by simp)
        simp [hp]
      · exfalso
        obtain ⟨q, hq, hqt⟩ := lastTextIndex_some_get rest k hr
        have hfalse := h (k + 1) q (by simpa using hq)
        rw [hfalse] at hqt
        exact Bool.false_ne_true hqt

/-- Helper: the index found by the backwards scan is the last one with
truthy text — every later index lacks it. -/
theorem lastTextIndex_last (ps : List ReplyPayload) (i : Nat)
    (h : lastTextIndex ps = some i) :
    ∀ (j : Nat), i < j → ∀ (q : ReplyPayload), ps[j]? = some q → payloadHasText q = false := by
  induction ps generalizing i with
  | nil => intro j _ q hq; simp at hq
  | cons p rest ih =>
    intro j hij q hq
    simp only [lastTextIndex] at h
    rcases hr : lastTextIndex rest with _ | k
    · simp only [hr] at h
      by_cases hp : payloadHasText p
      · simp only [if_pos hp, Option.some.injEq] at h
        subst h
        match j, hij, hq with
        | j' + 1, _, hq =>
          exact (lastTextIndex_none_iff rest).mp hr j' q (by simpa using hq)
      · simp [if_neg hp] at h
    · simp only [hr, Option.some.injEq] at h
      subst h
      match j, hij, hq with
      | j' + 1, hij, hq =>
        exact ih k hr j' (by omega) q (by simpa using hq)

/-- C7: `appendUsageLine` modifies exactly the last text-bearing payload —
same length, all other indices unchanged, that index gets the trimmed text
plus footer delimiter plus line — and when no payload has text it appends
one new text payload; the scan's `none` case is exactly "no payload has
truthy text". -/
theorem appendUsageLine_frame (payloads : List ReplyPayload) (line : String) :
    (∀ i, lastTextIndex payloads = some i →
       (appendUsageLine payloads line).length = payloads.length ∧
       (∀ (j : Nat), j ≠ i → (appendUsageLine payloads line)[j]? = payloads[j]?) ∧
       (∃ p, payloads[i]? = some p ∧ payloadHasText p = true ∧
          (∀ (j : Nat), i < j → ∀ (q : ReplyPayload), payloads[j]? = some q → payloadHasText q = false) ∧
          (appendUsageLine payloads line)[i]? =
            some { p with
              text := some (trimEndStr (p.text.getD "") ++ "\n\n--\n" ++ line) }))
    ∧ (lastTextIndex payloads = none →
        appendUsageLine payloads line = payloads ++ [{ text := some line }])
    ∧ (lastTextIndex payloads = none ↔
        ∀ (j : Nat) (q : ReplyPayload), payloads[j]? = some q → payloadHasText q = false) := by
  refine ⟨?_, ?_, lastTextIndex_none_iff payloads⟩
  · intro i h
    obtain ⟨p, hp, hpt⟩ := lastTextIndex_some_get payloads i h
    have hlt : i < payloads.length := (List.getElem?_eq_some.mp hp).1
    have hgetD : payloads.getD i {} = p := by
      rw [List.getD_eq_getElem payloads {} hlt]
      have := (List.getElem?_eq_some.mp hp).2
      exact this
    refine ⟨?_, ?_, p, hp, hpt, lastTextIndex_last payloads i h, ?_⟩
    · simp [appendUsageLine, h, hgetD, List.length_set]
    · intro j hj
      simp only [appendUsageLine, h]
      exact List.getElem?_set_ne (by omega)
    · simp only [appendUsageLine, h, hgetD]
      exact List.getElem?_set_eq_of_lt _ hlt
  · intro h
    simp [appendUsageLine, h]

/-- Witness for C7: a two-payload list whose first payload bears text gets
the footer on index 0, index 1 unchanged; an all-media list gets a new
trailing text payload. -/
theorem appendUsageLine_frame_witness :
    ((appendUsageLine [{ text := some "hello " }, { mediaUrl := some "m" }] "L").length = 2 ∧
     (appendUsageLine [{ text := some "hello " }, { mediaUrl := some "m" }] "L")[1]? =
       some { mediaUrl := some "m" } ∧
     (appendUsageLine [{ text := some "hello " }, { mediaUrl := some "m" }] "L")[0]? =
       some { text := some ("hello" ++ "\n\n--\n" ++ "L") }) ∧
    appendUsageLine [{ mediaUrl := some "m" }] "L" =
      [{ mediaUrl := some "m" }, { text := some "L" }] := by
  have h := appendUsageLine_frame [{ text := some "hello " }, { mediaUrl := some "m" }] "L"
  have h0 := h.1 0 (by decide)
  obtain ⟨p, hp, _, _, hset⟩ := h0.2.2
  refine ⟨⟨by simpa using h0.1, ?_, ?_⟩, ?_⟩
  · rw [h0.2.1 1 (by decide)]
    decide
  · obtain rfl : { text := some "hello " } = p := by simpa using hp
    rw [hset]
    decide
  · exact (appendUsageLine_frame [{ mediaUrl := some "m" }] "L").2.1 (by decide)

/-- Witness for C6: explicitly empty session flags with usage 12 in /
3 out, legacy cost mode on and enabling channel and global defaults still
yield no usage line, and the payload list passes through unchanged. -/
theorem formatResponseUsageLine_empty_flags_witness :
    formatResponseUsageLine usageEnvW
      { usage := some { input := some 12, output := some 3 },
        showCost := true, flags := some {} } = none
    ∧ resolveResponseUsageFlags (some {}) (some { tokens := some true })
        (some { tokens := some true }) = some {}
    ∧ applyUsageLine [{ text := some "ok" }]
        (formatResponseUsageLine usageEnvW
          { usage := some { input := some 12, output := some 3 },
            showCost := true, flags := some {} }) = [{ text := some "ok" }] :=
  formatResponseUsageLine_empty_flags usageEnvW
    { usage := some { input := some 12, output := some 3 },
      showCost := true, flags := some {} }
    {} (some { tokens := some true }) (some { tokens := some true })
    [{ text := some "ok" }] rfl rfl rfl rfl

/-- C8: `isBunFetchSocketError` holds exactly for a present, non-empty
message containing the socket-error phrase case-insensitively (the regex
has no metacharacters, so the `i`-flagged test is case-insensitive
substring containment), and `formatBunFetchSocketError` emits the header
line, then a fenced block holding the trimmed message, or `Unknown error`
when the trimmed message is empty; the output begins with
`⚠️ LLM connection failed.`. -/
theorem bunFetchSocketError_detection (m : String) :
    (isBunFetchSocketError (some m) = true ↔
      m ≠ "" ∧ testBunFetchSocketErrorRe m = true)
    ∧ isBunFetchSocketError none = false
    ∧ formatBunFetchSocketError m =
        bunFetchSocketErrorHeader ++ "\n" ++ "```" ++ "\n"
          ++ (if trimStr m = "" then "Unknown error" else trimStr m) ++ "\n" ++ "```"
    ∧ (∃ rest, formatBunFetchSocketError m = "⚠️ LLM connection failed." ++ rest) := by
  refine ⟨?_, rfl, ?_, ?_⟩
  · simp [isBunFetchSocketError]
  · simp [formatBunFetchSocketError, joinWithNewlines, bunFetchSocketErrorHeader,
      ← String.append_assoc]
  · refine ⟨" This could be due to server issues, network problems, or context length exceeded (e.g., with local LLMs like LM Studio). Original error:"
      ++ "\n" ++ "```" ++ "\n"
      ++ (if trimStr m = "" then "Unknown error" else trimStr m) ++ "\n" ++ "```", ?_⟩
    simp [formatBunFetchSocketError, joinWithNewlines, bunFetchSocketErrorHeader,
      ← String.append_assoc]

/-- C9: the usage-formatting utilities are deterministic pure functions —
equal arguments (including equal external formatter environments) always
produce equal results; the embedding is a total pure function, reflecting
that the source functions neither perform I/O nor mutate state. -/
theorem usageFormatting_deterministic
    (env env' : UsageFmtEnv) (p p' : FormatResponseUsageLineParams)
    (u u' mx mx' : Option ℚ)
    (henv : env = env') (hp : p = p') (hu : u = u') (hm : mx = mx') :
    formatResponseUsageLine env p = formatResponseUsageLine env' p'
    ∧ formatContextPercent env u mx = formatContextPercent env' u' mx' := by
  subst henv hp hu hm
  exact ⟨rfl, rfl⟩

/-- Witness for C9: two runs on the token-usage scenario agree. -/
theorem usageFormatting_deterministic_witness :
    formatResponseUsageLine usageEnvW
        { usage := some { input := some 12, output := some 3 },
          showCost := false, flags := some { tokens := some true } }
      = formatResponseUsageLine usageEnvW
        { usage := some { input := some 12, output := some 3 },
          showCost := false, flags := some { tokens := some true } }
    ∧ formatContextPercent usageEnvW (some 67000) (some 100000)
      = formatContextPercent usageEnvW (some 67000) (some 100000) :=
  usageFormatting_deterministic usageEnvW usageEnvW
    { usage := some { input := some 12, output := some 3 },
      showCost := false, flags := some { tokens := some true } }
    { usage := some { input := some 12, output := some 3 },
      showCost := false, flags := some { tokens := some true } }
    (some 67000) (some 67000) (some 100000) (some 100000) rfl rfl rfl rfl

end OpenClaw
